import Mathlib

/-
Verification development for the uconnect-v1 backend.

Shallow embedding of the authentication/session layer
(backend/app/services/auth.py, backend/app/dependencies.py,
backend/app/core/jwt.py), the user role/status update operations
(backend/app/services/user.py, backend/app/repositories/base.py) and the
chat orchestration layer (backend/app/routers/chat.py,
backend/app/services/conversation.py,
backend/app/repositories/conversation.py, backend/app/models).

Database tables are embedded as Lean lists of records; each ORM query used
by the modelled code paths is translated to the corresponding list
operation.  Timestamps are natural numbers.  HTTPException outcomes are
an explicit error type; state-mutating operations return the post-state
explicitly, with error paths returning the input state unchanged (an
HTTPException aborts the request before any commit on these paths).
-/

namespace UConnect

/-- Role enum from backend/app/models/base.py (UserRole). -/
inductive UserRole where
  | student
  | teacher
  | coordinator
  | admin
deriving DecidableEq

/-- Access status enum from backend/app/models/base.py (AccessStatus). -/
inductive AccessStatus where
  | active
  | inactive
  | suspended
deriving DecidableEq

/-- Conversation type enum from backend/app/models/base.py (ConversationType). -/
inductive ConversationType where
  | direct
  | group
  | support
deriving DecidableEq

/-- HTTPException statuses raised by the modelled code paths. -/
inductive HError where
  | unauthorized
  | forbidden
  | notFound
  | badRequest
deriving DecidableEq

/-- A row of the User table (backend/app/models/user.py). -/
structure UserRec where
  id : Nat
  registration : String
  name : String
  email : String
  role : UserRole
  accessStatus : AccessStatus
deriving DecidableEq

/-- A row of the Session table (backend/app/models/user.py, class Session).
The token column is the primary key. -/
structure SessionRec where
  token : String
  userId : Nat
  startDate : Nat
  expirationDate : Nat
deriving DecidableEq

/-- The database state seen by the authentication layer: the User table and
the Session table. -/
structure AuthDB where
  users : List UserRec
  sessions : List SessionRec
deriving DecidableEq

/-- A decoded JWT payload as returned by decode_token in
backend/app/core/jwt.py: a claim map, of which the modelled code reads only
the sub claim (absent sub is None). -/
structure JwtPayload where
  sub : Option String
deriving DecidableEq

/-- get_current_user from backend/app/dependencies.py.  The JWT library
(jose) is external; it is abstracted as the decode_token function argument.
Decode failure, a missing sub claim, and an unknown user id each raise 401.
The user lookup compares the User id column against the sub string, which
login stored as the decimal rendering of the user id. -/
def get_current_user (decode_token : String → Option JwtPayload)
    (token : String) (db : AuthDB) : Except HError UserRec :=
  match decode_token token with
  | none => .error .unauthorized
  | some payload =>
    match payload.sub with
    | none => .error .unauthorized
    | some user_id =>
      match db.users.find? (fun u => toString u.id == user_id) with
      | none => .error .unauthorized
      | some u => .ok u

/-- logout from backend/app/services/auth.py (AuthService.logout): look up
the first Session row whose token matches; when present delete it (deleting
by the token primary key) and return True, otherwise return False. -/
def logout (token : String) (db : AuthDB) : Bool × AuthDB :=
  match db.sessions.find? (fun s => s.token == token) with
  | some _ =>
    (true, { db with sessions := db.sessions.eraseP (fun s => s.token == token) })
  | none => (false, db)

/-- Result shape of a successful validate call. -/
structure ValidateResult where
  valid : Bool
  expires_at : Nat
deriving DecidableEq

/-- validate from backend/app/services/auth.py (AuthService.validate):
401 when no Session row matches the token; when the row has
expirationDate < now, delete it and raise 401; otherwise return
valid = true with the row expiry, leaving the state unchanged. -/
def validate (token : String) (now : Nat) (db : AuthDB) :
    Except HError ValidateResult × AuthDB :=
  match db.sessions.find? (fun s => s.token == token) with
  | none => (.error .unauthorized, db)
  | some s =>
    if s.expirationDate < now then
      (.error .unauthorized,
        { db with sessions := db.sessions.eraseP (fun r => r.token == token) })
    else
      (.ok { valid := true, expires_at := s.expirationDate }, db)

/-- GenericRepository.get_by_id from backend/app/repositories/base.py,
specialised to the User table: first row whose id matches. -/
def get_by_id (users : List UserRec) (obj_id : Nat) : Option UserRec :=
  users.find? (fun u => u.id == obj_id)

/-- The in-place mutation performed by GenericRepository.update for a role
update: set the role field on the first row whose id matches. -/
def update_role_rows (users : List UserRec) (obj_id : Nat) (new_role : UserRole) :
    List UserRec :=
  match users with
  | [] => []
  | u :: rest =>
    if u.id == obj_id then { u with role := new_role } :: rest
    else u :: update_role_rows rest obj_id new_role

/-- The in-place mutation performed by GenericRepository.update for an
access-status update: set accessStatus on the first row whose id matches. -/
def update_status_rows (users : List UserRec) (obj_id : Nat)
    (new_status : AccessStatus) : List UserRec :=
  match users with
  | [] => []
  | u :: rest =>
    if u.id == obj_id then { u with accessStatus := new_status } :: rest
    else u :: update_status_rows rest obj_id new_status

/-- GenericRepository.update specialised to a role update: fetch by id,
None when absent, otherwise set the field and return the refreshed row. -/
def repo_update_role (users : List UserRec) (obj_id : Nat) (new_role : UserRole) :
    Option UserRec × List UserRec :=
  match get_by_id users obj_id with
  | none => (none, users)
  | some u => (some { u with role := new_role }, update_role_rows users obj_id new_role)

/-- GenericRepository.update specialised to an access-status update. -/
def repo_update_status (users : List UserRec) (obj_id : Nat)
    (new_status : AccessStatus) : Option UserRec × List UserRec :=
  match get_by_id users obj_id with
  | none => (none, users)
  | some u =>
    (some { u with accessStatus := new_status }, update_status_rows users obj_id new_status)

/-- UserService.update_user_role from backend/app/services/user.py: None
when the target user does not exist; 403 when the requester targets their
own id; 403 when the requester is a coordinator and the requested role is
admin or coordinator; otherwise delegate to the repository update. -/
def update_user_role (users : List UserRec) (user_id : Nat)
    (current_user : UserRec) (new_role : UserRole) :
    Except HError (Option UserRec) × List UserRec :=
  match get_by_id users user_id with
  | none => (.ok none, users)
  | some _ =>
    if current_user.id == user_id then
      (.error .forbidden, users)
    else if current_user.role == .coordinator
        && (new_role == .admin || new_role == .coordinator) then
      (.error .forbidden, users)
    else
      let r := repo_update_role users user_id new_role
      (.ok r.1, r.2)

/-- UserService.update_user_status from backend/app/services/user.py: None
when the target user does not exist; 403 when the requester targets their
own id; otherwise delegate to the repository update. -/
def update_user_status (users : List UserRec) (user_id : Nat)
    (current_user : UserRec) (new_status : AccessStatus) :
    Except HError (Option UserRec) × List UserRec :=
  match get_by_id users user_id with
  | none => (.ok none, users)
  | some _ =>
    if current_user.id == user_id then
      (.error .forbidden, users)
    else
      let r := repo_update_status users user_id new_status
      (.ok r.1, r.2)

/-- The claims embedded in a token produced by create_access_token: the sub
claim copied from the data argument and the exp claim. -/
structure TokenClaims where
  sub : Option String
  exp : Nat
deriving DecidableEq

/-- create_access_token from backend/app/core/jwt.py.  Time is measured in
minutes.  The data dict is modelled by its sub entry, the only key the
callers pass.  The configured default ACCESS_TOKEN_EXPIRE_MINUTES is the
default_minutes argument.  The Python guard is a truthiness test
(if expires_minutes:), so both None and 0 select the default branch. -/
def create_access_token (data_sub : Option String) (expires_minutes : Option Nat)
    (default_minutes : Nat) (now : Nat) : TokenClaims × Nat :=
  let expire : Nat :=
    match expires_minutes with
    | some m => if m ≠ 0 then now + m else now + default_minutes
    | none => now + default_minutes
  ({ sub := data_sub, exp := expire }, expire)

/-- A row of the Conversation table (backend/app/models/chat.py) together
with its participant set (the Conversation_Participants association table),
recorded as the list of participant user ids in join order. -/
structure ConversationRec where
  id : Nat
  title : Option String
  type : ConversationType
  participants : List Nat
  updatedAt : Nat
deriving DecidableEq

/-- A row of the Channel table (backend/app/models/chat.py). -/
structure ChannelRec where
  id : Nat
  name : String
  conversationId : Nat
deriving DecidableEq

/-- A row of the Subchannel table (backend/app/models/chat.py). -/
structure SubchannelRec where
  id : Nat
  name : String
  parentChannelId : Nat
deriving DecidableEq

/-- A row of the Message table (backend/app/models/chat.py).  authorId is
nullable: the foreign key is declared ON DELETE SET NULL, so messages of a
deleted author carry authorId = none. -/
structure MessageRec where
  id : Nat
  content : String
  subchannelId : Nat
  authorId : Option Nat
  timestamp : Nat
  isRead : Bool
deriving DecidableEq

/-- The database state seen by the chat routes, with autoincrement counters
for the ids handed out on flush. -/
structure ChatDB where
  users : List UserRec
  convs : List ConversationRec
  channels : List ChannelRec
  subchannels : List SubchannelRec
  messages : List MessageRec
  nextConvId : Nat
  nextChannelId : Nat
  nextSubchannelId : Nat
deriving DecidableEq

/-- ConversationRepository.get_by_participant from
backend/app/repositories/conversation.py.  The query joins Conversation
with its participants association, yielding one row per
(conversation, participant) pair, filters on participants.any() — which
only requires the participant set to be nonempty and never mentions
user_id — and windows with offset/limit.  The user_id argument is unused
by the query. -/
def get_by_participant (convs : List ConversationRec) (user_id : Nat)
    (skip : Nat) (limit : Nat) : List ConversationRec :=
  ((convs.flatMap (fun c => c.participants.map (fun _ => c))).drop skip).take limit

/-- ConversationService.list_by_participant from
backend/app/services/conversation.py: delegates to the repository with
skip = 0 and limit = 50 by default. -/
def list_by_participant (convs : List ConversationRec) (user_id : Nat) :
    List ConversationRec :=
  get_by_participant convs user_id 0 50

/-- The default title computed by create_conversation in
backend/app/routers/chat.py when no usable title is supplied: the names of
the participants other than the requester, joined with a comma. -/
def default_title (current_user : UserRec) (participants : List UserRec) : String :=
  let others := (participants.filter (fun p => p.id ≠ current_user.id)).map (fun p => p.name)
  if others ≠ [] then "Chat com " ++ String.intercalate ", " others else "Chat"

/-- The participant rows resolved by create_conversation in
backend/app/routers/chat.py: the User rows whose id is listed (each row
once, in table order), with the requester appended when no resolved row
carries the requester id. -/
def final_participants (db : ChatDB) (current_user : UserRec)
    (participant_ids : List Nat) : List UserRec :=
  if (db.users.filter (fun u => participant_ids.contains u.id)).any
      (fun p => p.id == current_user.id) then
    db.users.filter (fun u => participant_ids.contains u.id)
  else
    db.users.filter (fun u => participant_ids.contains u.id) ++ [current_user]

/-- The title chosen by create_conversation: the stripped supplied title
when that is nonempty, otherwise the derived default. -/
def conv_title (db : ChatDB) (current_user : UserRec)
    (participant_ids : List Nat) (title : Option String) : String :=
  match title with
  | some s =>
    if s.trim ≠ "" then s.trim
    else default_title current_user (final_participants db current_user participant_ids)
  | none => default_title current_user (final_participants db current_user participant_ids)

/-- The Conversation row persisted by create_conversation: flushed id from
the autoincrement counter, type direct exactly when the final participant
count is 2 and group otherwise, participants as resolved. -/
def new_conversation_rec (db : ChatDB) (current_user : UserRec)
    (participant_ids : List Nat) (title : Option String) : ConversationRec :=
  { id := db.nextConvId,
    title := some (conv_title db current_user participant_ids title),
    type := if (final_participants db current_user participant_ids).length == 2
            then .direct else .group,
    participants := (final_participants db current_user participant_ids).map (fun p => p.id),
    updatedAt := 0 }

/-- The Channel row persisted by create_conversation for the new
conversation. -/
def new_channel_rec (db : ChatDB) : ChannelRec :=
  { id := db.nextChannelId, name := "Channel-" ++ toString db.nextConvId,
    conversationId := db.nextConvId }

/-- The Geral Subchannel row persisted by create_conversation under the new
channel. -/
def new_subchannel_rec (db : ChatDB) : SubchannelRec :=
  { id := db.nextSubchannelId, name := "Geral", parentChannelId := db.nextChannelId }

/-- create_conversation from backend/app/routers/chat.py.  Resolves the
listed participant ids against the User table; raises 404 when the number
of resolved rows differs from the length of the raw id list; appends the
requester when absent; takes the stripped title when it is nonempty,
otherwise derives the default title; sets type = direct exactly when the
final participant count is 2, else group; persists the Conversation, its
Channel and the Geral Subchannel in one commit.  Returns the new
conversation id. -/
def create_conversation (db : ChatDB) (current_user : UserRec)
    (participant_ids : List Nat) (title : Option String) :
    Except HError Nat × ChatDB :=
  if (db.users.filter (fun u => participant_ids.contains u.id)).length ≠
      participant_ids.length then
    (.error .notFound, db)
  else
    (.ok db.nextConvId,
      { db with
          convs := db.convs ++ [new_conversation_rec db current_user participant_ids title],
          channels := db.channels ++ [new_channel_rec db],
          subchannels := db.subchannels ++ [new_subchannel_rec db],
          nextConvId := db.nextConvId + 1,
          nextChannelId := db.nextChannelId + 1,
          nextSubchannelId := db.nextSubchannelId + 1 })

/-- The SQL predicate Message.authorId != uid under three-valued logic: a
row with NULL authorId is not selected, because NULL != uid is NULL, not
TRUE. -/
def sql_author_ne (authorId : Option Nat) (uid : Nat) : Bool :=
  match authorId with
  | none => false
  | some a => a ≠ uid

/-- One message row after the bulk update
query(Message).filter(subchannelId == subId, authorId != uid,
isRead == False).update(isRead = True) shared by get_chat_messages and
mark_messages_as_read in backend/app/routers/chat.py. -/
def mark_one (subId : Nat) (uid : Nat) (m : MessageRec) : MessageRec :=
  if m.subchannelId == subId && sql_author_ne m.authorId uid && m.isRead == false then
    { m with isRead := true }
  else m

/-- The Message table after the bulk read-marking update. -/
def mark_read_update (msgs : List MessageRec) (subId : Nat) (uid : Nat) :
    List MessageRec :=
  msgs.map (mark_one subId uid)

/-- mark_messages_as_read from backend/app/routers/chat.py: 404 when the
conversation is absent, 403 when the requester id is not among the
participant ids, silent return when the channel or subchannel is missing,
otherwise the bulk read-marking update on the subchannel messages. -/
def mark_messages_as_read (db : ChatDB) (chat_id : Nat) (current_user : UserRec) :
    Except HError Unit × ChatDB :=
  match db.convs.find? (fun c => c.id == chat_id) with
  | none => (.error .notFound, db)
  | some conversation =>
    if conversation.participants.contains current_user.id = false then
      (.error .forbidden, db)
    else
      match db.channels.find? (fun ch => ch.conversationId == chat_id) with
      | none => (.ok (), db)
      | some channel =>
        match db.subchannels.find? (fun sc => sc.parentChannelId == channel.id) with
        | none => (.ok (), db)
        | some subchannel =>
          (.ok (),
            { db with
                messages := mark_read_update db.messages subchannel.id current_user.id })

/-- A message row enriched with the author display name as returned by
get_chat_messages (left join against the User table: a NULL author yields
a null name). -/
structure MessageOut where
  id : Nat
  content : String
  timestamp : Nat
  authorId : Option Nat
  authorName : Option String
deriving DecidableEq

/-- Insertion step of the ascending-timestamp ordering applied by the
messages query (order_by timestamp asc). -/
def insert_by_timestamp (m : MessageRec) : List MessageRec → List MessageRec
  | [] => [m]
  | x :: xs =>
    if m.timestamp ≤ x.timestamp then m :: x :: xs else x :: insert_by_timestamp m xs

/-- Ascending-timestamp sort of a message list. -/
def sort_by_timestamp : List MessageRec → List MessageRec
  | [] => []
  | m :: xs => insert_by_timestamp m (sort_by_timestamp xs)

/-- get_chat_messages from backend/app/routers/chat.py: the same guards as
mark_messages_as_read (returning an empty list when the channel or
subchannel is missing), the subchannel messages in ascending timestamp
order enriched with author names, and the same bulk read-marking update
committed before returning. -/
def get_chat_messages (db : ChatDB) (chat_id : Nat) (current_user : UserRec) :
    Except HError (List MessageOut) × ChatDB :=
  match db.convs.find? (fun c => c.id == chat_id) with
  | none => (.error .notFound, db)
  | some conversation =>
    if conversation.participants.contains current_user.id = false then
      (.error .forbidden, db)
    else
      match db.channels.find? (fun ch => ch.conversationId == chat_id) with
      | none => (.ok [], db)
      | some channel =>
        match db.subchannels.find? (fun sc => sc.parentChannelId == channel.id) with
        | none => (.ok [], db)
        | some subchannel =>
          let rows := sort_by_timestamp
            (db.messages.filter (fun m => m.subchannelId == subchannel.id))
          let out := rows.map (fun m =>
            { id := m.id, content := m.content, timestamp := m.timestamp,
              authorId := m.authorId,
              authorName := m.authorId.bind (fun aid =>
                (db.users.find? (fun u => u.id == aid)).map (fun u => u.name)) })
          (.ok out,
            { db with
                messages := mark_read_update db.messages subchannel.id current_user.id })

/-- Fixture: a coordinator account. -/
def demoCoord : UserRec :=
  { id := 1, registration := "r1", name := "Coord", email := "c@u",
    role := .coordinator, accessStatus := .active }

/-- Fixture: an admin account. -/
def demoAdmin : UserRec :=
  { id := 2, registration := "r2", name := "Root", email := "a@u",
    role := .admin, accessStatus := .active }

/-- Fixture: a conversation whose participant set is the two users 2 and 3,
so user 1 is not a participant. -/
def demoConvOnly23 : ConversationRec :=
  { id := 10, title := none, type := .group, participants := [2, 3], updatedAt := 0 }

/-- Fixture: an auth state with one session, token tok1, expiring at 100. -/
def demoAuthDb : AuthDB :=
  { users := [demoCoord],
    sessions := [{ token := "tok1", userId := 1, startDate := 0, expirationDate := 100 }] }

/-- Fixture: an auth state with one session, token tok1, already expired at
validation time 200. -/
def demoAuthDbExpired : AuthDB :=
  { users := [demoCoord],
    sessions := [{ token := "tok1", userId := 1, startDate := 0, expirationDate := 100 }] }

/-- Fixture: a chat state holding one direct conversation between users 1
and 2, its channel and subchannel, and one unread message whose author was
deleted (authorId = none). -/
def demoChatDb : ChatDB :=
  { users := [demoCoord, demoAdmin],
    convs := [{ id := 1, title := none, type := .direct,
                participants := [1, 2], updatedAt := 0 }],
    channels := [{ id := 1, name := "Channel-1", conversationId := 1 }],
    subchannels := [{ id := 1, name := "Geral", parentChannelId := 1 }],
    messages := [{ id := 1, content := "hello", subchannelId := 1,
                   authorId := none, timestamp := 0, isRead := false }],
    nextConvId := 2, nextChannelId := 2, nextSubchannelId := 2 }

/-- Rows surviving eraseP by token do not carry the erased token, when the
token column is duplicate-free (the Session primary-key invariant). -/
theorem mem_eraseP_token_ne (l : List SessionRec) (tok : String)
    (hnd : (l.map SessionRec.token).Nodup) :
    ∀ r ∈ l.eraseP (fun s => s.token == tok), r.token ≠ tok := by
  induction l with
  | nil => intro r hr; cases hr
  | cons a rest ih =>
    intro r hr
    have hnd2 : a.token ∉ rest.map SessionRec.token ∧ (rest.map SessionRec.token).Nodup := by
      rw [List.map_cons, List.nodup_cons] at hnd
      exact hnd
    by_cases ha : a.token = tok
    · rw [List.eraseP_cons_of_pos (by simp [ha])] at hr
      intro hrt
      exact hnd2.1 (by rw [ha, ← hrt]; exact List.mem_map_of_mem SessionRec.token hr)
    · rw [List.eraseP_cons_of_neg (by simp [ha])] at hr
      rcases List.mem_cons.mp hr with h | h
      · rw [h]; exact ha
      · exact ih hnd2.2 r h

/-- After erasing a token from a duplicate-free session list, no row with
that token is found. -/
theorem find?_eraseP_token (l : List SessionRec) (tok : String)
    (hnd : (l.map SessionRec.token).Nodup) :
    (l.eraseP (fun s => s.token == tok)).find? (fun s => s.token == tok) = none := by
  rw [List.find?_eq_none]
  intro r hr
  simpa using mem_eraseP_token_ne l tok hnd r hr

/-- logout touches only the Session table: the User table is preserved. -/
theorem logout_preserves_users (token : String) (db : AuthDB) :
    ((logout token db).2).users = db.users := by
  unfold logout
  cases h : db.sessions.find? (fun s => s.token == token) <;> rfl

/-- Updating the role of a row by id commutes with the id lookup. -/
theorem get_by_id_update_role_rows (users : List UserRec) (uid : Nat) (r : UserRole) :
    get_by_id (update_role_rows users uid r) uid =
      (get_by_id users uid).map (fun u => { u with role := r }) := by
  induction users with
  | nil => rfl
  | cons u rest ih =>
    by_cases h : u.id = uid
    · simp [update_role_rows, get_by_id, h]
    · simp only [update_role_rows, get_by_id] at ih ⊢
      rw [if_neg (by simpa using h : ¬ (u.id == uid) = true)]
      rw [List.find?_cons_of_neg _ (by simpa using h), List.find?_cons_of_neg _ (by simpa using h)]
      exact ih

/-- The distinct rows matching a list of ids are strictly fewer than the
ids listed, once the id list has a duplicate and the table ids are
duplicate-free. -/
theorem filter_contains_length_lt (users : List UserRec) (pids : List Nat)
    (h1 : (users.map UserRec.id).Nodup) (h2 : ¬ pids.Nodup) :
    (users.filter (fun u => pids.contains u.id)).length < pids.length := by
  have hsub : List.Sublist ((users.filter (fun u => pids.contains u.id)).map UserRec.id)
      (users.map UserRec.id) :=
    List.Sublist.map UserRec.id (List.filter_sublist users)
  have hnd : ((users.filter (fun u => pids.contains u.id)).map UserRec.id).Nodup :=
    h1.sublist hsub
  have hmem : ∀ x ∈ (users.filter (fun u => pids.contains u.id)).map UserRec.id,
      x ∈ pids := by
    intro x hx
    rcases List.mem_map.mp hx with ⟨u, hu, hux⟩
    have := List.mem_filter.mp hu
    rw [← hux]
    simpa using this.2
  have hfs : ((users.filter (fun u => pids.contains u.id)).map UserRec.id).toFinset ⊆
      pids.toFinset := by
    intro x hx
    simp only [List.mem_toFinset] at hx ⊢
    exact hmem x hx
  have hcard1 : ((users.filter (fun u => pids.contains u.id)).map UserRec.id).toFinset.card =
      ((users.filter (fun u => pids.contains u.id)).map UserRec.id).length :=
    List.toFinset_card_of_nodup hnd
  have hcard2 : pids.toFinset.card < pids.length := by
    refine lt_of_le_of_ne (List.toFinset_card_le pids) ?_
    intro hc
    exact h2 (by simpa using Multiset.toFinset_card_eq_card_iff_nodup.mp (by simpa using hc))
  calc (users.filter (fun u => pids.contains u.id)).length
      = ((users.filter (fun u => pids.contains u.id)).map UserRec.id).length :=
        (List.length_map _ _).symm
    _ = ((users.filter (fun u => pids.contains u.id)).map UserRec.id).toFinset.card :=
        hcard1.symm
    _ ≤ pids.toFinset.card := Finset.card_le_card hfs
    _ < pids.length := hcard2

/-- C1: the claim says list_by_participant(u) returns exactly the
conversations in which u participates.  The query in
ConversationRepository.get_by_participant never uses its user_id argument:
on a state holding one conversation whose participants are users 2 and 3,
the listing for user 1 returns that conversation (once per participant join
row), although user 1 is not a participant — contradicting the claim and
the inline comment of the repository itself. -/
theorem get_by_participant_ignores_user_id :
    list_by_participant [demoConvOnly23] 1 = [demoConvOnly23, demoConvOnly23] ∧
    get_by_participant [demoConvOnly23] 1 0 100 = [demoConvOnly23, demoConvOnly23] ∧
    (1 ∈ demoConvOnly23.participants) = False := by
  refine ⟨by decide, by decide, by decide⟩

/-- C2 counterexample: a coordinator (user 1) downgrades an existing admin
(user 2) to teacher; the call does not fail Forbidden and the admin row is
changed, refuting the claim that every role choice is rejected. -/
theorem update_user_role_coordinator_downgrade_not_forbidden :
    (update_user_role [demoCoord, demoAdmin] 2 demoCoord .teacher).1 =
      Except.ok (some { demoAdmin with role := .teacher }) ∧
    (update_user_role [demoCoord, demoAdmin] 2 demoCoord .teacher).1 ≠
      Except.error HError.forbidden ∧
    get_by_id (update_user_role [demoCoord, demoAdmin] 2 demoCoord .teacher).2 2 =
      some { demoAdmin with role := .teacher } := by
  refine ⟨rfl, ?_, by decide⟩
  intro hc
  rw [show (update_user_role [demoCoord, demoAdmin] 2 demoCoord UserRole.teacher).1 =
      Except.ok (some { demoAdmin with role := UserRole.teacher }) from rfl] at hc
  exact Except.noConfusion hc

/-- C2 amended: for a coordinator C and an existing target T with a
different id, update_user_role fails Forbidden exactly when the requested
role is admin or coordinator; a downgrade to teacher or student succeeds
and changes the target row to the requested role. -/
theorem update_user_role_coordinator_guard (users : List UserRec) (uid : Nat)
    (cu : UserRec) (nr : UserRole) (u : UserRec)
    (hu : get_by_id users uid = some u)
    (hne : cu.id ≠ uid)
    (hcoord : cu.role = .coordinator) :
    ((nr = .admin ∨ nr = .coordinator) →
        update_user_role users uid cu nr = (.error .forbidden, users)) ∧
    ((nr = .teacher ∨ nr = .student) →
        update_user_role users uid cu nr =
          (.ok (some { u with role := nr }), update_role_rows users uid nr) ∧
        get_by_id (update_role_rows users uid nr) uid = some { u with role := nr }) := by
  constructor
  · intro hnr
    unfold update_user_role
    rw [hu]
    rw [if_neg (by simpa using hne)]
    rw [if_pos (by rcases hnr with h | h <;> simp [hcoord, h])]
  · intro hnr
    constructor
    · unfold update_user_role
      rw [hu]
      rw [if_neg (by simpa using hne)]
      rw [if_neg (by rcases hnr with h | h <;> simp [hcoord, h])]
      unfold repo_update_role
      rw [hu]
    · rw [get_by_id_update_role_rows, hu]
      rfl

/-- C2 witness: the amended theorem applied to the coordinator/admin
fixture with the downgrade role teacher. -/
theorem update_user_role_coordinator_guard_witness :
    get_by_id [demoCoord, demoAdmin] 2 = some demoAdmin ∧
    update_user_role [demoCoord, demoAdmin] 2 demoCoord .teacher =
      (.ok (some { demoAdmin with role := .teacher }),
        update_role_rows [demoCoord, demoAdmin] 2 .teacher) := by
  refine ⟨by decide, ?_⟩
  exact ((update_user_role_coordinator_guard [demoCoord, demoAdmin] 2 demoCoord
    .teacher demoAdmin (by decide) (by decide) (by decide)).2 (Or.inl rfl)).1

/-- C7 counterexample: with ttl = 0 supplied, default 30 minutes and
now = 1000, the issued expiry is 1030 — the configured default — and not
now + 0, refuting the claim that a supplied ttl of 0 yields now + 0 and
that the default is used only when ttl is omitted. -/
theorem create_access_token_zero_ttl_uses_default :
    (create_access_token (some "1") (some 0) 30 1000).2 = 1030 ∧
    (1030 : Nat) ≠ 1000 + 0 := by
  refine ⟨by decide, by decide⟩

/-- C7 amended: a supplied nonzero ttl yields expiry now + ttl minutes; an
omitted ttl and a supplied ttl of 0 (falsy in the Python guard) both yield
expiry now + default; the returned claims embed the subject and that
expiry. -/
theorem create_access_token_expiry (data_sub : Option String)
    (dm : Nat) (now : Nat) :
    (∀ m : Nat, m ≠ 0 →
        create_access_token data_sub (some m) dm now =
          ({ sub := data_sub, exp := now + m }, now + m)) ∧
    create_access_token data_sub none dm now =
      ({ sub := data_sub, exp := now + dm }, now + dm) ∧
    create_access_token data_sub (some 0) dm now =
      ({ sub := data_sub, exp := now + dm }, now + dm) := by
  refine ⟨?_, rfl, ?_⟩
  · intro m hm
    simp [create_access_token, hm]
  · simp [create_access_token]

/-- C7 witness: the amended theorem applied at subject 1, ttl 45, default
30, now 1000. -/
theorem create_access_token_expiry_witness :
    (45 : Nat) ≠ 0 ∧
    create_access_token (some "1") (some 45) 30 1000 =
      ({ sub := some "1", exp := 1045 }, 1045) := by
  refine ⟨by decide, ?_⟩
  exact (create_access_token_expiry (some "1") 30 1000).1 45 (by decide)

/-- C8: when the target user exists and the requester id equals the target
id, both update_user_role and update_user_status fail Forbidden for every
requested role and status, and the table is returned unchanged. -/
theorem self_update_forbidden (users : List UserRec) (uid : Nat)
    (cu : UserRec) (r : UserRole) (st : AccessStatus) (u : UserRec)
    (hu : get_by_id users uid = some u)
    (hself : cu.id = uid) :
    update_user_role users uid cu r = (.error .forbidden, users) ∧
    update_user_status users uid cu st = (.error .forbidden, users) := by
  constructor
  · unfold update_user_role
    rw [hu]
    rw [if_pos (by simpa using hself)]
  · unfold update_user_status
    rw [hu]
    rw [if_pos (by simpa using hself)]

/-- C8 witness: the admin fixture attempting to change its own role and
status. -/
theorem self_update_forbidden_witness :
    get_by_id [demoCoord, demoAdmin] 2 = some demoAdmin ∧
    update_user_role [demoCoord, demoAdmin] 2 demoAdmin .student =
      (.error .forbidden, [demoCoord, demoAdmin]) ∧
    update_user_status [demoCoord, demoAdmin] 2 demoAdmin .suspended =
      (.error .forbidden, [demoCoord, demoAdmin]) := by
  refine ⟨by decide, ?_, ?_⟩
  · exact (self_update_forbidden [demoCoord, demoAdmin] 2 demoAdmin .student
      .suspended demoAdmin (by decide) (by decide)).1
  · exact (self_update_forbidden [demoCoord, demoAdmin] 2 demoAdmin .student
      .suspended demoAdmin (by decide) (by decide)).2

/-- C3: get_current_user reads only the presented token (through the
external decoder) and the User table.  Two states agreeing on the User
table yield the same result for every token and every decoder, and the
state left by logout — which deletes only a Session row — yields the same
result as the state before it, so a logged-out token keeps being accepted
for as long as the decoder accepts it. -/
theorem get_current_user_ignores_session_ledger
    (decode_token : String → Option JwtPayload) (token lo_token : String)
    (db1 db2 : AuthDB) (h : db1.users = db2.users) :
    get_current_user decode_token token db1 = get_current_user decode_token token db2 ∧
    get_current_user decode_token token ((logout lo_token db1).2) =
      get_current_user decode_token token db1 := by
  constructor
  · unfold get_current_user
    rw [h]
  · unfold get_current_user
    rw [logout_preserves_users]

/-- C3 witness: the noninterference theorem applied to two concrete states
that share the User table but hold different session ledgers. -/
theorem get_current_user_ignores_session_ledger_witness :
    demoAuthDb.users = (AuthDB.mk [demoCoord] []).users ∧
    get_current_user (fun _ => some { sub := some "1" }) "tok1" demoAuthDb =
      get_current_user (fun _ => some { sub := some "1" }) "tok1" (AuthDB.mk [demoCoord] []) := by
  refine ⟨rfl, ?_⟩
  exact (get_current_user_ignores_session_ledger (fun _ => some { sub := some "1" })
    "tok1" "tok1" demoAuthDb (AuthDB.mk [demoCoord] []) rfl).1

/-- C4: under the Session primary-key invariant (tokens duplicate-free),
validate raises 401 and leaves the state unchanged when no row matches the
token; when the matching row is expired it raises 401, the post-state is
the ledger with that row erased and holds no row for the token; when the
matching row is unexpired it returns valid = true with the row expiry and
the state unchanged. -/
theorem validate_cases (token : String) (now : Nat) (db : AuthDB)
    (hnd : (db.sessions.map SessionRec.token).Nodup) :
    (db.sessions.find? (fun s => s.token == token) = none →
        validate token now db = (.error .unauthorized, db)) ∧
    ∀ s, db.sessions.find? (fun s => s.token == token) = some s →
      ((s.expirationDate < now →
          validate token now db =
            (.error .unauthorized,
              { db with sessions := db.sessions.eraseP (fun r => r.token == token) }) ∧
          ∀ r ∈ (validate token now db).2.sessions, r.token ≠ token) ∧
       (¬ s.expirationDate < now →
          validate token now db =
            (.ok { valid := true, expires_at := s.expirationDate }, db))) := by
  constructor
  · intro hnone
    unfold validate
    rw [hnone]
  · intro s hs
    constructor
    · intro hexp
      have hval : validate token now db =
          (.error .unauthorized,
            { db with sessions := db.sessions.eraseP (fun r => r.token == token) }) := by
        unfold validate
        rw [hs]
        simp [hexp]
      refine ⟨hval, ?_⟩
      rw [hval]
      intro r hr
      exact mem_eraseP_token_ne db.sessions token hnd r hr
    · intro hexp
      unfold validate
      rw [hs]
      simp [hexp]

/-- C4 witness: validating the fixture token before its expiry. -/
theorem validate_cases_witness :
    (demoAuthDb.sessions.map SessionRec.token).Nodup ∧
    validate "tok1" 50 demoAuthDb =
      (.ok { valid := true, expires_at := 100 }, demoAuthDb) := by
  refine ⟨by decide, ?_⟩
  exact ((validate_cases "tok1" 50 demoAuthDb (by decide)).2
    { token := "tok1", userId := 1, startDate := 0, expirationDate := 100 }
    (by decide)).2 (by decide)

/-- C9: under the Session primary-key invariant, a second logout of the
same token returns False and leaves the state exactly where the first
logout left it, and logout of a token with no matching row is a no-op
returning False rather than an error. -/
theorem logout_idempotent (token : String) (db : AuthDB)
    (hnd : (db.sessions.map SessionRec.token).Nodup) :
    logout token ((logout token db).2) = (false, (logout token db).2) ∧
    (db.sessions.find? (fun s => s.token == token) = none →
        logout token db = (false, db)) := by
  have hbase : ∀ d : AuthDB, d.sessions.find? (fun s => s.token == token) = none →
      logout token d = (false, d) := by
    intro d hd
    unfold logout
    rw [hd]
  have hnone : ((logout token db).2).sessions.find? (fun s => s.token == token) = none := by
    unfold logout
    cases hf : db.sessions.find? (fun s => s.token == token) with
    | none => simpa using hf
    | some s => simpa using find?_eraseP_token db.sessions token hnd
  exact ⟨hbase _ hnone, hbase db⟩

/-- C9 witness: double logout of the fixture token, and logout of an
unknown token on the same state. -/
theorem logout_idempotent_witness :
    (demoAuthDb.sessions.map SessionRec.token).Nodup ∧
    logout "tok1" ((logout "tok1" demoAuthDb).2) =
      (false, (logout "tok1" demoAuthDb).2) := by
  refine ⟨by decide, ?_⟩
  exact (logout_idempotent "tok1" demoAuthDb (by decide)).1

/-- C6 counterexample: participant 2 calls mark_messages_as_read on the
fixture conversation; the call succeeds, yet the unread message whose
author was deleted (authorId = none) is still unread afterwards, because
the SQL filter authorId != 2 does not select NULL authors — refuting the
claim that null-author messages end up with isRead = true. -/
theorem mark_read_skips_null_author :
    (mark_messages_as_read demoChatDb 1 demoAdmin).1 = Except.ok () ∧
    (mark_messages_as_read demoChatDb 1 demoAdmin).2.messages =
      [{ id := 1, content := "hello", subchannelId := 1, authorId := none,
         timestamp := 0, isRead := false }] := by
  refine ⟨rfl, by decide⟩

/-- C6 amended: after a participant calls mark_messages_as_read or
get_chat_messages on a conversation whose channel and subchannel resolve,
the message table is the bulk update under the three-valued SQL filter:
every message of the subchannel with a non-null author different from the
requester ends up read, while messages authored by the requester and
messages with a null author are left exactly as they were. -/
theorem mark_read_marks_nonauthor_messages (db : ChatDB) (chat_id : Nat)
    (cu : UserRec) (conversation : ConversationRec) (channel : ChannelRec)
    (subchannel : SubchannelRec)
    (hc : db.convs.find? (fun c => c.id == chat_id) = some conversation)
    (hp : conversation.participants.contains cu.id = true)
    (hch : db.channels.find? (fun ch => ch.conversationId == chat_id) = some channel)
    (hsc : db.subchannels.find? (fun sc => sc.parentChannelId == channel.id) = some subchannel) :
    (mark_messages_as_read db chat_id cu).2.messages =
      db.messages.map (mark_one subchannel.id cu.id) ∧
    (get_chat_messages db chat_id cu).2.messages =
      db.messages.map (mark_one subchannel.id cu.id) ∧
    (∀ m : MessageRec, m.subchannelId = subchannel.id →
        sql_author_ne m.authorId cu.id = true →
        (mark_one subchannel.id cu.id m).isRead = true) ∧
    (∀ m : MessageRec, m.authorId = none ∨ m.authorId = some cu.id →
        mark_one subchannel.id cu.id m = m) := by
  refine ⟨?_, ?_, ?_, ?_⟩
  · unfold mark_messages_as_read
    rw [hc]
    simp only [hp]
    rw [if_neg (by simp)]
    simp only [hch, hsc]
    simp [mark_read_update]
  · unfold get_chat_messages
    rw [hc]
    simp only [hp]
    rw [if_neg (by simp)]
    simp only [hch, hsc]
    simp [mark_read_update]
  · intro m h1 h2
    by_cases hr : m.isRead
    · have : mark_one subchannel.id cu.id m = m := by
        unfold mark_one
        rw [if_neg (by simp [hr])]
      rw [this]
      exact hr
    · unfold mark_one
      rw [if_pos (by simp [h1, h2, hr])]
  · intro m hm
    unfold mark_one
    rcases hm with h | h
    · rw [if_neg (by simp [sql_author_ne, h])]
    · rw [if_neg (by simp [sql_author_ne, h])]

/-- C6 witness: the amended theorem applied to the fixture conversation
with participant 2 as requester. -/
theorem mark_read_marks_nonauthor_messages_witness :
    demoChatDb.convs.find? (fun c => c.id == 1) =
      some { id := 1, title := none, type := .direct,
             participants := [1, 2], updatedAt := 0 } ∧
    (mark_messages_as_read demoChatDb 1 demoAdmin).2.messages =
      demoChatDb.messages.map (mark_one 1 2) := by
  refine ⟨by decide, ?_⟩
  exact (mark_read_marks_nonauthor_messages demoChatDb 1 demoAdmin
    { id := 1, title := none, type := .direct, participants := [1, 2], updatedAt := 0 }
    { id := 1, name := "Channel-1", conversationId := 1 }
    { id := 1, name := "Geral", parentChannelId := 1 }
    (by decide) (by decide) (by decide) (by decide)).1

/-- C5: when create_conversation succeeds (the resolved rows match the id
list) on a state whose autoincrement counters are fresh, the result is the
new conversation id; the post-state holds that conversation, with the
requester in its participant set and type direct exactly when the final
participant count is 2; exactly one channel points at the new conversation,
that channel is the freshly numbered one, and exactly one subchannel points
at it. -/
theorem create_conversation_provisioning (db : ChatDB) (cu : UserRec)
    (pids : List Nat) (title : Option String)
    (hlen : (db.users.filter (fun u => pids.contains u.id)).length = pids.length)
    (hconv : ∀ c ∈ db.convs, c.id ≠ db.nextConvId)
    (hch : ∀ ch ∈ db.channels, ch.conversationId ≠ db.nextConvId)
    (hsc : ∀ sc ∈ db.subchannels, sc.parentChannelId ≠ db.nextChannelId) :
    (create_conversation db cu pids title).1 = .ok db.nextConvId ∧
    (create_conversation db cu pids title).2.convs.find?
        (fun c => c.id == db.nextConvId) =
      some (new_conversation_rec db cu pids title) ∧
    cu.id ∈ (new_conversation_rec db cu pids title).participants ∧
    ((new_conversation_rec db cu pids title).type = .direct ↔
      (new_conversation_rec db cu pids title).participants.length = 2) ∧
    ((create_conversation db cu pids title).2.channels.filter
        (fun x => x.conversationId == db.nextConvId)).length = 1 ∧
    (create_conversation db cu pids title).2.channels.find?
        (fun x => x.conversationId == db.nextConvId) = some (new_channel_rec db) ∧
    ((create_conversation db cu pids title).2.subchannels.filter
        (fun x => x.parentChannelId == db.nextChannelId)).length = 1 := by
  have hneg : ¬ ((db.users.filter (fun u => pids.contains u.id)).length ≠ pids.length) :=
    fun h => h hlen
  have hcc : create_conversation db cu pids title =
      (.ok db.nextConvId,
        { db with
            convs := db.convs ++ [new_conversation_rec db cu pids title],
            channels := db.channels ++ [new_channel_rec db],
            subchannels := db.subchannels ++ [new_subchannel_rec db],
            nextConvId := db.nextConvId + 1,
            nextChannelId := db.nextChannelId + 1,
            nextSubchannelId := db.nextSubchannelId + 1 }) := by
    unfold create_conversation
    rw [if_neg hneg]
  refine ⟨by rw [hcc], ?_, ?_, ?_, ?_, ?_, ?_⟩
  · rw [hcc]
    rw [List.find?_append]
    have h1 : db.convs.find? (fun c => c.id == db.nextConvId) = none := by
      rw [List.find?_eq_none]
      intro c hcmem
      simpa using hconv c hcmem
    rw [h1]
    simp [new_conversation_rec]
  · unfold new_conversation_rec final_participants
    by_cases hany : (db.users.filter (fun u => pids.contains u.id)).any
        (fun p => p.id == cu.id)
    · rcases List.any_eq_true.mp hany with ⟨p, hp, hpid⟩
      rw [if_pos hany]
      exact List.mem_map.mpr ⟨p, hp, by simpa using hpid⟩
    · rw [if_neg hany]
      rw [List.map_append]
      exact List.mem_append_right _ (by simp)
  · unfold new_conversation_rec
    by_cases h2 : (final_participants db cu pids).length = 2
    · simp [h2]
    · simp only [List.length_map]
      rw [if_neg (by simpa using h2)]
      simp [h2]
  · rw [hcc]
    rw [List.filter_append]
    have h1 : db.channels.filter (fun x => x.conversationId == db.nextConvId) = [] := by
      rw [List.filter_eq_nil_iff]
      intro x hx
      simpa using hch x hx
    rw [h1]
    simp [new_channel_rec]
  · rw [hcc]
    rw [List.find?_append]
    have h1 : db.channels.find? (fun x => x.conversationId == db.nextConvId) = none := by
      rw [List.find?_eq_none]
      intro x hx
      simpa using hch x hx
    rw [h1]
    simp [new_channel_rec]
  · rw [hcc]
    rw [List.filter_append]
    have h1 : db.subchannels.filter (fun x => x.parentChannelId == db.nextChannelId) = [] := by
      rw [List.filter_eq_nil_iff]
      intro x hx
      simpa using hsc x hx
    rw [h1]
    simp [new_subchannel_rec]

/-- C5 witness: the provisioning theorem applied to the fixture state, with
user 2 creating a conversation naming user 1. -/
theorem create_conversation_provisioning_witness :
    (demoChatDb.users.filter (fun u => [1].contains u.id)).length = [1].length ∧
    (create_conversation demoChatDb demoAdmin [1] none).1 = .ok demoChatDb.nextConvId := by
  refine ⟨by decide, ?_⟩
  exact (create_conversation_provisioning demoChatDb demoAdmin [1] none
    (by decide) (by decide) (by decide) (by decide)).1

/-- C10: when the User table ids are duplicate-free (the primary-key
invariant) and the requested participant id list has a duplicate, the
number of resolved rows is strictly below the length of the raw list, so
create_conversation fails NotFound and the state is returned unchanged —
no conversation, channel or subchannel is created — even when every listed
id resolves. -/
theorem create_conversation_duplicate_participant_ids (db : ChatDB)
    (cu : UserRec) (pids : List Nat) (title : Option String)
    (huser : (db.users.map UserRec.id).Nodup)
    (hdup : ¬ pids.Nodup) :
    create_conversation db cu pids title = (.error .notFound, db) := by
  have hlt := filter_contains_length_lt db.users pids huser hdup
  unfold create_conversation
  rw [if_pos (Nat.ne_of_lt hlt)]

/-- C10 witness: user 1 listed twice; both occurrences resolve to the
existing user 1, yet the call fails NotFound and leaves the fixture state
unchanged. -/
theorem create_conversation_duplicate_participant_ids_witness :
    (demoChatDb.users.map UserRec.id).Nodup ∧ ¬ ([1, 1] : List Nat).Nodup ∧
    (1 ∈ demoChatDb.users.map UserRec.id) ∧
    create_conversation demoChatDb demoCoord [1, 1] none =
      (.error .notFound, demoChatDb) := by
  refine ⟨by decide, by decide, by decide, ?_⟩
  exact create_conversation_duplicate_participant_ids demoChatDb demoCoord [1, 1] none
    (by decide) (by decide)

end UConnect
